import Mathlib

/-!
Shallow embedding of `src/server/lib/AutoLeveling.js` (piduino-grbl).

JavaScript numbers are modelled as `JSNum` (exact rationals plus the IEEE
special values `Infinity`, `-Infinity`, `NaN`); a possibly-`undefined`
JavaScript value is `Option JSNum`, with `none` standing for `undefined`.
The claims only exercise values on which rational arithmetic agrees with
IEEE doubles (small integers), so `ℚ` is exact here.
-/

/-- A JavaScript number: a finite value, an infinity, or `NaN`. -/
inductive JSNum where
  | num : ℚ → JSNum
  | posInf : JSNum
  | negInf : JSNum
  | nan : JSNum
deriving DecidableEq, Repr

namespace JSNum

/-- JavaScript `ToNumber` on a possibly-`undefined` number:
`undefined` converts to `NaN`, numbers are unchanged.  `Math.min` /
`Math.max` apply this coercion to their arguments. -/
def toNum : Option JSNum → JSNum
  | none => nan
  | some v => v

/-- Model of `Math.min` on two JavaScript numbers: `NaN` is absorbing, otherwise
the usual order with `-Infinity` least and `Infinity` greatest. -/
def jsMin : JSNum → JSNum → JSNum
  | nan, _ => nan
  | _, nan => nan
  | negInf, _ => negInf
  | _, negInf => negInf
  | posInf, b => b
  | a, posInf => a
  | num a, num b => num (min a b)

/-- Model of `Math.max` on two JavaScript numbers: `NaN` is absorbing, otherwise
the usual order with `-Infinity` least and `Infinity` greatest. -/
def jsMax : JSNum → JSNum → JSNum
  | nan, _ => nan
  | _, nan => nan
  | posInf, _ => posInf
  | _, posInf => posInf
  | negInf, b => b
  | a, negInf => a
  | num a, num b => num (max a b)

end JSNum

open JSNum

/-- A probed sample `{x, y, z}`; any coordinate may be `undefined`
(`none`), e.g. when the height-map parser found fewer than three tokens
on a line or a `probe_update` event carried a partial position. -/
structure ProbedPos where
  x : Option JSNum
  y : Option JSNum
  z : Option JSNum
deriving DecidableEq, Repr

/-- The aggregate owned by the `AutoLeveling` class:
`{probePointCount, probedPositions, minZ, maxZ}`.  `minZ`/`maxZ` are
`Option JSNum` because the first accepted update stores `pos.z` directly,
which may be `undefined`. -/
structure LevelingState where
  probePointCount : ℕ
  probedPositions : List ProbedPos
  minZ : Option JSNum
  maxZ : Option JSNum
deriving DecidableEq, Repr

/-- Source `defaultState`: `Object.freeze({probePointCount: 0,
probedPositions: [], minZ: 0, maxZ: 0})`. -/
def defaultState : LevelingState :=
  { probePointCount := 0
    probedPositions := []
    minZ := some (num 0)
    maxZ := some (num 0) }

/-- Model of `resetState()`: `setState(defaultState)` — replaces the whole state
with a copy of `defaultState`. -/
def resetState (_s : LevelingState) : LevelingState := defaultState

/-- Model of `stop()`: calls `resetState()`. -/
def stop (s : LevelingState) : LevelingState := resetState s

/-- Outcome of one delivery of the `probe_update` event: the state after
the handler ran, whether it emitted `probe_end`, and whether it raised
(a `TypeError` from calling `.toFixed(3)` on `undefined` while building
the `log.debug` message). -/
structure UpdateResult where
  state : LevelingState
  emitted : Bool
  raised : Bool
deriving DecidableEq, Repr

/-- Source handler `eventHandler.probeUpdate`.  If
`probedPositions.length >= probePointCount` it returns at once (no state
change, no emit).  Otherwise it replaces the state: the first sample sets
`minZ = maxZ = pos.z`; later samples set `minZ = Math.min(minZ, pos.z)`,
`maxZ = Math.max(maxZ, pos.z)`; either way `pos` is appended.  It then
interpolates `pos.x/.y/.z.toFixed(3)` and the new `minZ/maxZ.toFixed(3)`
into a debug message — `.toFixed` on `undefined` raises, after the state
was already replaced — and finally emits `probe_end`. -/
def probeUpdate (s : LevelingState) (pos : ProbedPos) : UpdateResult :=
  if s.probedPositions.length ≥ s.probePointCount then
    { state := s, emitted := false, raised := false }
  else
    let s' : LevelingState :=
      if s.probedPositions.length = 0 then
        { s with
            minZ := pos.z
            maxZ := pos.z
            probedPositions := s.probedPositions ++ [pos] }
      else
        { s with
            minZ := some (jsMin (toNum s.minZ) (toNum pos.z))
            maxZ := some (jsMax (toNum s.maxZ) (toNum pos.z))
            probedPositions := s.probedPositions ++ [pos] }
    let raised :=
      pos.x.isNone || pos.y.isNone || pos.z.isNone ||
        s'.minZ.isNone || s'.maxZ.isNone
    if raised then
      { state := s', emitted := false, raised := true }
    else
      { state := s', emitted := true, raised := false }

/-! ## Number rendering (JavaScript `String(...)` on the values this code emits) -/

/-- Decimal digits of `n`, most significant first (fuel-indexed so the
recursion is structural; `fuel = n + 1` always suffices). -/
def natDecDigits : ℕ → ℕ → List Char
  | 0, _ => []
  | fuel + 1, n =>
    if n < 10 then [Char.ofNat (48 + n)]
    else natDecDigits fuel (n / 10) ++ [Char.ofNat (48 + n % 10)]

/-- Decimal rendering of a natural number, as JavaScript renders it. -/
def natToDec (n : ℕ) : String := String.mk (natDecDigits (n + 1) n)

/-- Decimal rendering of an integer, as JavaScript renders it. -/
def intToDec (i : ℤ) : String :=
  if i < 0 then "-" ++ natToDec i.natAbs else natToDec i.natAbs

/-- JavaScript `String(q)` for a finite number.  Integral values render
as plain decimals — the only case this codebase produces (every value
interpolated into a command is an integer in the claims' runs).  The
non-integral fallback is a placeholder rendering, unreached here; a full
model of ECMAScript shortest-round-trip float formatting is out of
scope. -/
def ratToDec (q : ℚ) : String :=
  if q.den = 1 then intToDec q.num
  else intToDec q.num ++ "/" ++ natToDec q.den

/-- JavaScript `String(v)` on a number value (`NaN`, infinities, or a
finite value via `ratToDec`). -/
def jsNumToString : JSNum → String
  | num q => ratToDec q
  | posInf => "Infinity"
  | negInf => "-Infinity"
  | nan => "NaN"

/-- JavaScript `String(v)` on a possibly-`undefined` number, as used by
template literals: `undefined` renders as `"undefined"`. -/
def jsValToString : Option JSNum → String
  | none => "undefined"
  | some v => jsNumToString v

/-! ## The command synthesizer `gcode` -/

/-- JavaScript `Array.prototype.join(sep)`. -/
def joinWith (sep : String) : List String → String
  | [] => ""
  | [t] => t
  | t :: ts => t ++ sep ++ joinWith sep ts

/-- The `gcode(cmd, params)` helper.  A parameter map is a list of
`(letter, value)` pairs in insertion order, with `none` standing for a
`null`/`undefined` value.  `_omitBy(params, _isNil)` drops the absent
values, `_map` renders each remaining pair as `letter + value`, and the
results are joined with spaces; if nothing remains the bare command is
returned. -/
def gcode (cmd : String) (params : List (String × Option ℚ)) : String :=
  let present := params.filter (fun p => p.2.isSome)
  let s := joinWith " " (present.map (fun p => p.1 ++ ratToDec (p.2.getD 0)))
  if s.length > 0 then cmd ++ " " ++ s else cmd

/-- The spec's reading of the synthesizer (§4.1): the command followed by
one `LETTERvalue` token per present parameter, space-joined in insertion
order, absent parameters dropped, the bare command when none remain. -/
def gcodeTokens (params : List (String × Option ℚ)) : List String :=
  params.filterMap (fun p => p.2.map (fun v => p.1 ++ ratToDec v))

/-- Spec-side formulation of `gcode` used for the refinement claim:
space-join the command with the rendered present-parameter tokens. -/
def gcodeSpec (cmd : String) (params : List (String × Option ℚ)) : String :=
  joinWith " " (cmd :: gcodeTokens params)

/-! ## Instruction synthesis: `start(options, callback)` -/

/-- The instructions `start` pushes for the position at `index`: an index
marker comment, then for index 0 an absolute-mode command, a retract to
`startZ`, the XY move at `feedrate`, a probe move toward `endZ` at
`probeFeedrate / 2`, and a retract; for later indices the leading retract
is omitted and the probe move uses the full `probeFeedrate`.  `feedrate`
has no default in the source, so it is an `Option` and is dropped by
`gcode` when absent. -/
def pointGCodes (index : ℕ) (x y : ℚ) (feedrate : Option ℚ)
    (probeFeedrate startZ endZ : ℚ) : List String :=
  gcode ("(Auto Leveling: probing point " ++ natToDec index ++ ")") [] ::
    (if index = 0 then
      [ gcode "G90" []
      , gcode "G0" [("Z", some startZ)]
      , gcode "G0" [("X", some x), ("Y", some y), ("F", feedrate)]
      , gcode "G38.2" [("Z", some endZ), ("F", some (probeFeedrate / 2))]
      , gcode "G0" [("Z", some startZ)] ]
    else
      [ gcode "G90" []
      , gcode "G0" [("X", some x), ("Y", some y), ("F", feedrate)]
      , gcode "G38.2" [("Z", some endZ), ("F", some probeFeedrate)]
      , gcode "G0" [("Z", some startZ)] ])

/-- The full instruction list returned by `start` for the given
positions (the source's `forEach` with index over `positions`). -/
def startGCodes (positions : List (ℚ × ℚ)) (feedrate : Option ℚ)
    (probeFeedrate startZ endZ : ℚ) : List String :=
  (positions.enum.map
    (fun p => pointGCodes p.1 p.2.1 p.2.2 feedrate probeFeedrate startZ endZ)).flatten

/-- The state `start` leaves behind: `resetState()` followed by
`setState({...state, probePointCount: positions.length})`. -/
def startState (positions : List (ℚ × ℚ)) (s : LevelingState) : LevelingState :=
  { resetState s with probePointCount := positions.length }

/-! ## Height-map store -/

/-- The whitespace class `\s` as it occurs inside one line of the file
(the data was already split on `'\n'`). -/
def isWsChar (c : Char) : Bool :=
  c == ' ' || c == '\t' || c == '\r' || c == '\x0b' || c == '\x0c'

/-- Value of a run of decimal digit characters. -/
def digitsToNat (l : List Char) : ℕ :=
  l.foldl (fun a c => a * 10 + (c.toNat - 48)) 0

/-- Greedy match of the number group `-?\d*\.?\d+` at the head of `cs`:
an optional sign, an optional integer part, an optional dot, a mandatory
digit run.  Returns the parsed value and the unconsumed suffix, `none`
when no such number starts here.  (`"12."` matches just `"12"`: with no
digits after the dot the regex backtracks to the dot-less alternative.) -/
def parseNumber (cs : List Char) : Option (ℚ × List Char) :=
  let (neg, cs1) :=
    match cs with
    | '-' :: r => (true, r)
    | _ => (false, cs)
  let intPart := cs1.takeWhile Char.isDigit
  let r1 := cs1.dropWhile Char.isDigit
  let signed : ℚ → ℚ := fun q => if neg then -q else q
  match r1 with
  | '.' :: r2 =>
    let fracPart := r2.takeWhile Char.isDigit
    let r3 := r2.dropWhile Char.isDigit
    if fracPart.length > 0 then
      some (signed ((digitsToNat intPart : ℚ) +
        (digitsToNat fracPart : ℚ) / (10 ^ fracPart.length : ℕ)), r3)
    else if intPart.length > 0 then
      some (signed (digitsToNat intPart : ℚ), r1)
    else none
  | _ =>
    if intPart.length > 0 then some (signed (digitsToNat intPart : ℚ), r1)
    else none

/-- One step of `line.matchAll(/(-?\d*\.?\d+)?(\s+|$)/g)`, collecting
`match[1]` of every match (`none` when the optional number group is
absent, i.e. the match was a bare whitespace run or the empty match that
`$` produces at the end of the line).  `exec` searches forward for the
next position where the pattern matches: a number counts only when it is
followed by whitespace or the end of the line (no shorter number match
can be followed by whitespace, since every proper prefix of a maximal
number match ends right before a digit or a dot).  The fuel is one more
than the remaining characters; every recursive call consumes at least
one character, so it never runs out. -/
def scanTokens : ℕ → List Char → List (Option ℚ)
  | 0, _ => []
  | fuel + 1, cs =>
    match cs with
    | [] => [none]
    | c :: rest =>
      match parseNumber (c :: rest) with
      | some (q, r) =>
        match r with
        | [] => [some q, none]
        | c' :: _ =>
          if isWsChar c' then some q :: scanTokens fuel (r.dropWhile isWsChar)
          else scanTokens fuel rest
      | none =>
        if isWsChar c then none :: scanTokens fuel (rest.dropWhile isWsChar)
        else scanTokens fuel rest

/-- Tokenize one line exactly as the loader's `matchAll` loop does. -/
def lineTokens (line : String) : List (Option ℚ) :=
  scanTokens (line.length + 1) line.data

/-- Parse one line of the height-map file: the first three tokens become
`x`, `y`, `z`; missing trailing positions destructure to `undefined`. -/
def parseLine (line : String) : ProbedPos :=
  let values := lineTokens line
  { x := (values.getD 0 none).map num
    y := (values.getD 1 none).map num
    z := (values.getD 2 none).map num }

/-- JavaScript `String.prototype.split(sep)` for a one-character
separator, on the underlying character list. -/
def splitOnChar (sep : Char) : List Char → List (List Char)
  | [] => [[]]
  | c :: rest =>
    match splitOnChar sep rest with
    | [] => [[c]]
    | t :: ts => if c = sep then [] :: t :: ts else (c :: t) :: ts

/-- Whitespace stripped by JavaScript `String.prototype.trim` (the line
separator `'\n'` on top of the intra-line whitespace class). -/
def isTrimWsChar (c : Char) : Bool := isWsChar c || c == '\n'

/-- JavaScript `String.prototype.trim`: strip whitespace from both
ends. -/
def jsTrim (cs : List Char) : List Char :=
  ((cs.dropWhile isTrimWsChar).reverse.dropWhile isTrimWsChar).reverse

/-- The non-blank lines of the file contents: split on `'\n'`, keep the
lines whose trimmed length is positive. -/
def fileLines (data : String) : List String :=
  ((splitOnChar '\n' data.data).map String.mk).filter
    (fun line => 0 < (jsTrim line.data).length)

/-- The body of the loader's `try` block applied to the file contents
read from disk: parse every non-blank line, fold `Math.min`/`Math.max`
of each `z` into accumulators started at `Infinity`/`-Infinity`, and
replace the state's four fields wholesale. -/
def loadStateFrom (s : LevelingState) (data : String) : LevelingState :=
  let lines := fileLines data
  let acc := lines.foldl
    (fun (a : List ProbedPos × JSNum × JSNum) line =>
      let p := parseLine line
      (a.1 ++ [p], jsMin (toNum p.z) a.2.1, jsMax (toNum p.z) a.2.2))
    ([], posInf, negInf)
  { s with
      probePointCount := lines.length
      probedPositions := acc.1
      minZ := some acc.2.1
      maxZ := some acc.2.2 }

/-- Model of `loadProbedPositionsFromFile(filepath)`.  The file read is the only
operation in the `try` block that can throw, so it is modelled as an
`Option String` input: `none` is an I/O fault (the `catch` branch logs
and returns `false`, leaving the state untouched), `some data` is a
successful read (the state is replaced and `true` returned). -/
def loadProbedPositionsFromFile (readResult : Option String)
    (s : LevelingState) : Bool × LevelingState :=
  match readResult with
  | none => (false, s)
  | some data => (true, loadStateFrom s data)

/-- One serialized line of `saveProbedPositionsToFile`: the sample's
`x y z` followed by the six always-zero placeholder axes `a b c u v w`. -/
def saveLine (p : ProbedPos) : String :=
  jsValToString p.x ++ " " ++ jsValToString p.y ++ " " ++ jsValToString p.z ++
    " 0 0 0 0 0 0"

/-- The file contents `saveProbedPositionsToFile` writes: one line per
probed sample, joined with `'\n'`. -/
def saveData (positions : List ProbedPos) : String :=
  joinWith "\n" (positions.map saveLine)

/-- Model of `saveProbedPositionsToFile(filepath)`: serializes the state's
samples and writes them; returns `false` exactly when the write throws
(modelled by `writeOk`), `true` otherwise.  The data written is
`saveData` of the state's `probedPositions`. -/
def saveProbedPositionsToFile (writeOk : Bool) (s : LevelingState) :
    Bool × String :=
  (writeOk, saveData s.probedPositions)

/-! ## Grid planner

The source's `getProbeXYPositions` runs two nested `for` loops with
floating-point accumulation and no guard on the step signs.  The loops
are embedded fuel-indexed: `none` means the loop has not exited within
`fuel` iterations, so `∀ fuel, ... = none` is non-termination of the
source loop. -/

/-- The inner `for (let x = startX; x <= endX; x += stepX)` loop,
returning the visited `x` values, or `none` when the loop does not exit
within `fuel` iterations. -/
def probeXLoop (endX stepX : ℚ) : ℕ → ℚ → Option (List ℚ)
  | 0, x => if x ≤ endX then none else some []
  | fuel + 1, x =>
    if x ≤ endX then (probeXLoop endX stepX fuel (x + stepX)).map (fun xs => x :: xs)
    else some []

/-- The outer `for (let y = startY; y <= endY; y += stepY)` loop: for
each visited `y`, push `{x, y}` for every `x` the inner loop visits. -/
def probeYLoop (startX endX stepX endY stepY : ℚ) : ℕ → ℚ → Option (List (ℚ × ℚ))
  | 0, y => if y ≤ endY then none else some []
  | fuel + 1, y =>
    if y ≤ endY then
      match probeXLoop endX stepX fuel startX with
      | none => none
      | some xs =>
        match probeYLoop startX endX stepX endY stepY fuel (y + stepY) with
        | none => none
        | some rest => some (xs.map (fun x => (x, y)) ++ rest)
    else some []

/-- Model of `getProbeXYPositions(options)` with the source's defaults
(`startX = startY = 0`, `endX = endY = 0`, `stepX = stepY = 10`),
fuel-indexed: `some positions` when both loops exit within `fuel`
iterations, `none` otherwise. -/
def getProbeXYPositions (startX endX stepX startY endY stepY : ℚ)
    (fuel : ℕ) : Option (List (ℚ × ℚ)) :=
  probeYLoop startX endX stepX endY stepY fuel startY

/-! ## Helper lemmas -/

/-- A rendered natural number is never the empty string. -/
theorem natToDec_length_pos (n : ℕ) : 0 < (natToDec n).length := by
  unfold natToDec
  rw [String.length_mk]
  unfold natDecDigits
  split
  · simp
  · simp

/-- A rendered integer is never the empty string. -/
theorem intToDec_length_pos (i : ℤ) : 0 < (intToDec i).length := by
  unfold intToDec
  split
  · rw [String.length_append]
    have := natToDec_length_pos i.natAbs
    omega
  · exact natToDec_length_pos i.natAbs

/-- A rendered finite number is never the empty string. -/
theorem ratToDec_length_pos (q : ℚ) : 0 < (ratToDec q).length := by
  unfold ratToDec
  split
  · exact intToDec_length_pos q.num
  · rw [String.length_append, String.length_append]
    have := intToDec_length_pos q.num
    omega

/-- Joining a list whose head is nonempty yields a nonempty string. -/
theorem joinWith_space_length_pos (t : String) (ts : List String)
    (ht : 0 < t.length) : 0 < (joinWith " " (t :: ts)).length := by
  cases ts with
  | nil => exact ht
  | cons u us =>
    show 0 < (t ++ " " ++ joinWith " " (u :: us)).length
    rw [String.length_append, String.length_append]
    omega

/-- Every token the synthesizer renders for a present parameter is
nonempty (it ends in a rendered number). -/
theorem gcodeTokens_length_pos (params : List (String × Option ℚ)) :
    ∀ t ∈ gcodeTokens params, 0 < t.length := by
  intro t ht
  simp only [gcodeTokens, List.mem_filterMap] at ht
  obtain ⟨p, _, hp⟩ := ht
  obtain ⟨v, _, rfl⟩ := Option.map_eq_some'.mp hp
  rw [String.length_append]
  have := ratToDec_length_pos v
  omega

/-- Filtering the present parameters and rendering them agrees with the
one-pass `filterMap` formulation. -/
theorem gcode_filter_map_eq (params : List (String × Option ℚ)) :
    (params.filter (fun p => p.2.isSome)).map
      (fun p => p.1 ++ ratToDec (p.2.getD 0)) = gcodeTokens params := by
  induction params with
  | nil => rfl
  | cons p ps ih =>
    obtain ⟨l, v⟩ := p
    cases v with
    | none => simpa [gcodeTokens, List.filter] using ih
    | some q => simpa [gcodeTokens, List.filter] using ih

/-- Shared form of the synthesizer refinement: `gcode` renders exactly
the command followed by the present-parameter tokens, space-joined. -/
theorem gcode_eq_gcodeSpec (cmd : String) (params : List (String × Option ℚ)) :
    gcode cmd params = gcodeSpec cmd params := by
  show (if (joinWith " " ((params.filter (fun p => p.2.isSome)).map
      (fun p => p.1 ++ ratToDec (p.2.getD 0)))).length > 0
    then cmd ++ " " ++ joinWith " " ((params.filter (fun p => p.2.isSome)).map
      (fun p => p.1 ++ ratToDec (p.2.getD 0)))
    else cmd) = gcodeSpec cmd params
  unfold gcodeSpec
  rw [gcode_filter_map_eq]
  cases h : gcodeTokens params with
  | nil => simp [joinWith]
  | cons t ts =>
    have ht : 0 < t.length := by
      apply gcodeTokens_length_pos params
      rw [h]; exact List.mem_cons_self t ts
    rw [if_pos (joinWith_space_length_pos t ts ht)]
    rfl

/-- With a non-positive x-step and the start inside the bound, the inner
loop never exits, whatever the fuel. -/
theorem probeXLoop_nonpos_step (endX stepX : ℚ) (hs : stepX ≤ 0) :
    ∀ fuel x, x ≤ endX → probeXLoop endX stepX fuel x = none := by
  intro fuel
  induction fuel with
  | zero => intro x hx; simp [probeXLoop, hx]
  | succ n ih =>
    intro x hx
    have hx' : x + stepX ≤ endX := by linarith
    simp [probeXLoop, hx, ih (x + stepX) hx']

/-- With a non-positive y-step and the start inside the bound, the outer
loop never exits, whatever the fuel. -/
theorem probeYLoop_nonpos_stepY (startX endX stepX endY stepY : ℚ)
    (hs : stepY ≤ 0) :
    ∀ fuel y, y ≤ endY →
      probeYLoop startX endX stepX endY stepY fuel y = none := by
  intro fuel
  induction fuel with
  | zero => intro y hy; simp [probeYLoop, hy]
  | succ n ih =>
    intro y hy
    have hy' : y + stepY ≤ endY := by linarith
    cases hinner : probeXLoop endX stepX n startX with
    | none => simp [probeYLoop, hy, hinner]
    | some xs => simp [probeYLoop, hy, hinner, ih (y + stepY) hy']

/-- With a non-positive x-step, starts inside both bounds, the whole
planner never exits: the first y-iteration already hangs in the inner
loop (or fuel runs out while still inside the bound). -/
theorem probeYLoop_nonpos_stepX (startX endX stepX endY stepY : ℚ)
    (hs : stepX ≤ 0) (hx : startX ≤ endX) :
    ∀ fuel y, y ≤ endY →
      probeYLoop startX endX stepX endY stepY fuel y = none := by
  intro fuel y hy
  cases fuel with
  | zero => simp [probeYLoop, hy]
  | succ n => simp [probeYLoop, hy, probeXLoop_nonpos_step endX stepX hs n startX hx]

/-- Absorption of `NaN` by `Math.min` in the second argument. -/
theorem jsMin_nan_right (a : JSNum) : jsMin a nan = nan := by cases a <;> rfl

/-- Absorption of `NaN` by `Math.max` in the second argument. -/
theorem jsMax_nan_right (a : JSNum) : jsMax a nan = nan := by cases a <;> rfl

/-- A fully-populated probe position with all coordinates equal. -/
def samplePos (q : ℚ) : ProbedPos :=
  { x := some (num q), y := some (num q), z := some (num q) }

/-! ## Claims -/

/-- C1, counterexample: the state `stop()` installs is not
`{probePointCount: 0, probedPositions: [], minZ: undefined,
maxZ: undefined}` — at this concrete prior state the reset yields
`minZ = maxZ = 0`, not `undefined`. -/
theorem stop_reset_counterexample :
    stop { probePointCount := 2, probedPositions := [samplePos 5],
           minZ := some (num (-1)), maxZ := some (num 7) } ≠
      { probePointCount := 0, probedPositions := [], minZ := none,
        maxZ := none } := by decide

/-- C1, amended: for every prior state, `stop()` and the reset performed
inside `start()` set the `LevelingState` exactly to `{probePointCount: 0,
probedPositions: [], minZ: 0, maxZ: 0}` (the source's `defaultState` has
`minZ = maxZ = 0`, not `undefined`); `start` then only overwrites
`probePointCount` with the number of supplied positions. -/
theorem stop_and_start_reset_to_zero_default (s : LevelingState)
    (positions : List (ℚ × ℚ)) :
    stop s = { probePointCount := 0, probedPositions := [],
               minZ := some (num 0), maxZ := some (num 0) } ∧
    resetState s = { probePointCount := 0, probedPositions := [],
                     minZ := some (num 0), maxZ := some (num 0) } ∧
    startState positions s =
      { probePointCount := positions.length, probedPositions := [],
        minZ := some (num 0), maxZ := some (num 0) } :=
  ⟨rfl, rfl, rfl⟩

/-- C2: the source's grid planner does not reject non-positive steps;
with `stepY ≤ 0` (start within the y-bound), or `stepX ≤ 0` (starts
within both bounds), the nested loops never exit — no amount of fuel
makes the fuel-indexed unrolling return. -/
theorem getProbeXYPositions_nonpositive_step_diverges
    (startX endX stepX startY endY stepY : ℚ) :
    (stepY ≤ 0 → startY ≤ endY →
      ∀ fuel, getProbeXYPositions startX endX stepX startY endY stepY fuel = none) ∧
    (stepX ≤ 0 → startX ≤ endX → startY ≤ endY →
      ∀ fuel, getProbeXYPositions startX endX stepX startY endY stepY fuel = none) := by
  constructor
  · intro h1 h2 fuel
    exact probeYLoop_nonpos_stepY startX endX stepX endY stepY h1 fuel startY h2
  · intro h1 h2 h3 fuel
    exact probeYLoop_nonpos_stepX startX endX stepX endY stepY h1 h2 fuel startY h3

/-- C2, witness: with `stepY = 0` and `startY = endY = 0` the planner
diverges — here sampled at fuel 25. -/
theorem getProbeXYPositions_nonpositive_step_diverges_witness :
    ((0 : ℚ) ≤ 0 ∧ (0 : ℚ) ≤ 0) ∧
      getProbeXYPositions 0 0 10 0 0 0 25 = none :=
  ⟨⟨le_refl 0, le_refl 0⟩,
    (getProbeXYPositions_nonpositive_step_diverges 0 0 10 0 0 0).1
      (le_refl 0) (le_refl 0) 25⟩

/-- C3, counterexample: a `probe_update` whose `pos.z` is absent, in an
accepting state, raises (the handler's `pos.z.toFixed(3)` in its debug
log is a `TypeError` on `undefined`). -/
theorem probeUpdate_missing_z_counterexample :
    (probeUpdate
      { probePointCount := 1, probedPositions := [],
        minZ := some (num 0), maxZ := some (num 0) }
      { x := some (num 1), y := some (num 2), z := none }).raised = true := by
  decide

/-- C3, amended: an accepted `probe_update` with `pos.z` absent does
update the state first — the sample is appended and the missing `z`
propagates through the min/max comparisons (`undefined` directly for the
first sample, `NaN` afterwards) — but the handler then raises while
formatting its debug message, and `probe_end` is not emitted. -/
theorem probeUpdate_missing_z_poisons_and_raises (s : LevelingState)
    (pos : ProbedPos)
    (hacc : s.probedPositions.length < s.probePointCount)
    (hz : pos.z = none) :
    (probeUpdate s pos).raised = true ∧
    (probeUpdate s pos).emitted = false ∧
    (probeUpdate s pos).state.probedPositions = s.probedPositions ++ [pos] ∧
    (s.probedPositions = [] →
      (probeUpdate s pos).state.minZ = none ∧
      (probeUpdate s pos).state.maxZ = none) ∧
    (s.probedPositions ≠ [] →
      (probeUpdate s pos).state.minZ = some nan ∧
      (probeUpdate s pos).state.maxZ = some nan) := by
  cases hl : s.probedPositions with
  | nil =>
    rw [hl] at hacc
    have hc : ¬ s.probePointCount = 0 := by simp at hacc; omega
    simp [probeUpdate, hl, hz, hc]
  | cons p ps =>
    rw [hl] at hacc
    have hc : ¬ s.probePointCount ≤ ps.length + 1 := by simp at hacc; omega
    simp [probeUpdate, hl, hz, hc, toNum, jsMin_nan_right, jsMax_nan_right]

/-- C3, witness: concrete accepting state with one prior sample; the
missing-`z` update raises and poisons both aggregates to `NaN`. -/
theorem probeUpdate_missing_z_poisons_and_raises_witness :
    ((1 : ℕ) < 3 ∧
      (({ x := some (num 2), y := some (num 2), z := none } : ProbedPos).z
        = none)) ∧
    (probeUpdate
      { probePointCount := 3, probedPositions := [samplePos 1],
        minZ := some (num 1), maxZ := some (num 1) }
      { x := some (num 2), y := some (num 2), z := none }).raised = true ∧
    (probeUpdate
      { probePointCount := 3, probedPositions := [samplePos 1],
        minZ := some (num 1), maxZ := some (num 1) }
      { x := some (num 2), y := some (num 2), z := none }).state.minZ
      = some nan :=
  ⟨⟨by decide, rfl⟩,
    (probeUpdate_missing_z_poisons_and_raises _ _ (by decide) rfl).1,
    ((probeUpdate_missing_z_poisons_and_raises _ _ (by decide) rfl).2.2.2.2
      (by decide)).1⟩

/-- C4: in a saturated state (`probedPositions.length ≥ probePointCount`)
a further `probe_update` leaves the whole state unchanged — and, as the
early return precedes both the log line and the emit, neither fires. -/
theorem probeUpdate_saturated_is_noop (s : LevelingState) (pos : ProbedPos)
    (h : s.probedPositions.length ≥ s.probePointCount) :
    probeUpdate s pos = { state := s, emitted := false, raised := false } := by
  unfold probeUpdate
  rw [if_pos h]

/-- C4, witness: a state already holding its 2 expected samples absorbs
a third update without any change. -/
theorem probeUpdate_saturated_is_noop_witness :
    ((2 : ℕ) ≥ 2) ∧
    probeUpdate
      { probePointCount := 2, probedPositions := [samplePos 1, samplePos 2],
        minZ := some (num 1), maxZ := some (num 2) } (samplePos 3) =
      { state := { probePointCount := 2,
                   probedPositions := [samplePos 1, samplePos 2],
                   minZ := some (num 1), maxZ := some (num 2) },
        emitted := false, raised := false } :=
  ⟨by decide, probeUpdate_saturated_is_noop _ _ (by decide)⟩

/-- C5: with room left in the session, the first accepted update sets
`minZ = maxZ = pos.z` and records the sample; each later accepted update
takes the componentwise min/max with `pos.z` and appends the sample in
delivery order; and the concrete run feeding z-values 1, −2, 3 from a
fresh 3-point session passes through `minZ = maxZ = 1` and ends with
`minZ = −2`, `maxZ = 3`. -/
theorem probeUpdate_aggregates_min_max :
    (∀ (s : LevelingState) (pos : ProbedPos),
        s.probedPositions.length < s.probePointCount →
        s.probedPositions = [] →
        (probeUpdate s pos).state.minZ = pos.z ∧
        (probeUpdate s pos).state.maxZ = pos.z ∧
        (probeUpdate s pos).state.probedPositions = [pos]) ∧
    (∀ (s : LevelingState) (pos : ProbedPos) (a b c : ℚ),
        s.probedPositions.length < s.probePointCount →
        s.minZ = some (num a) → s.maxZ = some (num b) →
        pos.z = some (num c) → s.probedPositions ≠ [] →
        (probeUpdate s pos).state.minZ = some (num (min a c)) ∧
        (probeUpdate s pos).state.maxZ = some (num (max b c)) ∧
        (probeUpdate s pos).state.probedPositions
          = s.probedPositions ++ [pos]) ∧
    ((probeUpdate { defaultState with probePointCount := 3 }
        (samplePos 1)).state.minZ = some (num 1) ∧
     (probeUpdate { defaultState with probePointCount := 3 }
        (samplePos 1)).state.maxZ = some (num 1) ∧
     (probeUpdate (probeUpdate (probeUpdate
        { defaultState with probePointCount := 3 }
        (samplePos 1)).state (samplePos (-2))).state
        (samplePos 3)).state =
      { probePointCount := 3,
        probedPositions := [samplePos 1, samplePos (-2), samplePos 3],
        minZ := some (num (-2)), maxZ := some (num 3) }) := by
  refine ⟨?_, ?_, ?_⟩
  · intro s pos hacc hempty
    have hc : ¬ s.probePointCount = 0 := by
      rw [hempty] at hacc; simp at hacc; omega
    refine ⟨?_, ?_, ?_⟩ <;>
      · simp only [probeUpdate, hempty]
        simp [hc]
        split <;> simp
  · intro s pos a b c hacc hminZ hmaxZ hz hne
    cases hl : s.probedPositions with
    | nil => exact absurd hl hne
    | cons p ps =>
      rw [hl] at hacc
      have hc : ¬ s.probePointCount ≤ ps.length + 1 := by
        simp at hacc; omega
      refine ⟨?_, ?_, ?_⟩ <;>
        · simp only [probeUpdate, hl]
          simp [hc, hminZ, hmaxZ, hz, toNum, jsMin, jsMax]
          split <;> simp
  · decide

/-- C5, witness: the first-sample rule applied in a fresh 3-point
session, and the min rule applied at the second sample. -/
theorem probeUpdate_aggregates_min_max_witness :
    ((0 : ℕ) < 3 ∧
      (probeUpdate { defaultState with probePointCount := 3 }
          (samplePos 1)).state.minZ = (samplePos 1).z) ∧
    ((1 : ℕ) < 3 ∧
      (probeUpdate { defaultState with
                       probePointCount := 3
                       probedPositions := [samplePos 1]
                       minZ := some (num 1)
                       maxZ := some (num 1) }
          (samplePos (-2))).state.minZ = some (num (min 1 (-2)))) :=
  ⟨⟨by decide, (probeUpdate_aggregates_min_max.1 _ _ (by decide) rfl).1⟩,
   ⟨by decide,
     (probeUpdate_aggregates_min_max.2.1 _ _ 1 1 (-2)
       (by decide) rfl rfl rfl (by decide)).1⟩⟩

/-- C6, counterexample: a `probe_update` delivered in the saturated
default state (`probePointCount = 0`) returns before the emit, so no
`probe_end` follows — the emission is not unconditional. -/
theorem probeUpdate_no_emit_counterexample :
    (probeUpdate defaultState (samplePos 1)).emitted = false := by decide

/-- C6, amended: the session emits `probe_end` after a `probe_update`
exactly when the update is accepted (room left in the session) and all
three coordinates are present; ignored (saturated) updates return before
the emit, and accepted updates with a missing coordinate raise in the
log line before the emit. -/
theorem probeUpdate_emits_probe_end_iff (s : LevelingState) (pos : ProbedPos) :
    (probeUpdate s pos).emitted = true ↔
      (s.probedPositions.length < s.probePointCount ∧
       pos.x ≠ none ∧ pos.y ≠ none ∧ pos.z ≠ none) := by
  by_cases hsat : s.probedPositions.length ≥ s.probePointCount
  · simp [probeUpdate, hsat, Nat.not_lt.mpr hsat]
  · have hacc : s.probedPositions.length < s.probePointCount :=
      Nat.not_le.mp hsat
    obtain ⟨px, py, pz⟩ := pos
    cases px <;> cases py <;> cases pz <;>
      · simp [probeUpdate, hsat, hacc]
        try (split <;> simp)

/-- C8: for every command token and parameter map, `gcode` returns the
command followed by one `LETTERvalue` token per present parameter,
space-joined in the parameters' insertion order; absent (`null` /
`undefined`) parameters are dropped entirely, and with no present
parameter the bare command alone is returned — i.e. `gcode` coincides
with the spec-side formulation `gcodeSpec`. -/
theorem gcode_renders_present_params_in_order (cmd : String)
    (params : List (String × Option ℚ)) :
    gcode cmd params = gcodeSpec cmd params :=
  gcode_eq_gcodeSpec cmd params

/-- C7: the instruction sequence of a 2-point `start` with
`feedrate = 500`, `probeFeedrate = 20`, `startZ = 5`, `endZ = -5`:
point 0 gets an index marker, absolute positioning, a `Z5` retract, the
XY move carrying `F500`, the probe move toward `Z-5` carrying `F10`
(half the probe feedrate), and a `Z5` retract; point 1 omits the leading
retract and its probe move carries the full `F20`. -/
theorem start_two_point_gcode_sequence (x0 y0 x1 y1 : ℚ) :
    startGCodes [(x0, y0), (x1, y1)] (some 500) 20 5 (-5) =
      [ "(Auto Leveling: probing point 0)", "G90", "G0 Z5",
        "G0 X" ++ ratToDec x0 ++ " Y" ++ ratToDec y0 ++ " F500",
        "G38.2 Z-5 F10", "G0 Z5",
        "(Auto Leveling: probing point 1)", "G90",
        "G0 X" ++ ratToDec x1 ++ " Y" ++ ratToDec y1 ++ " F500",
        "G38.2 Z-5 F20", "G0 Z5" ] := by
  have key : ∀ (x y : ℚ),
      gcode "G0" [("X", some x), ("Y", some y), ("F", some 500)] =
        "G0 X" ++ ratToDec x ++ " Y" ++ ratToDec y ++ " F500" := by
    intro x y
    rw [gcode_eq_gcodeSpec]
    show ("G0" ++ " ") ++
        ((("X" ++ ratToDec x) ++ " ") ++
          ((("Y" ++ ratToDec y) ++ " ") ++ ("F" ++ ratToDec 500))) = _
    rw [show ratToDec 500 = "500" from rfl,
      show ("G0 X" : String) = "G0" ++ (" " ++ "X") from rfl,
      show (" Y" : String) = " " ++ "Y" from rfl,
      show (" F500" : String) = " " ++ ("F" ++ "500") from rfl]
    simp only [String.append_assoc]
  have hMarker0 :
      gcode ("(Auto Leveling: probing point " ++ natToDec 0 ++ ")") [] =
        "(Auto Leveling: probing point 0)" := by decide
  have hMarker1 :
      gcode ("(Auto Leveling: probing point " ++ natToDec 1 ++ ")") [] =
        "(Auto Leveling: probing point 1)" := by decide
  have hG90 : gcode "G90" [] = "G90" := rfl
  have hRetract : gcode "G0" [("Z", some 5)] = "G0 Z5" := by decide
  have hProbe0 : gcode "G38.2" [("Z", some (-5)), ("F", some ((20 : ℚ) / 2))] =
      "G38.2 Z-5 F10" := by
    rw [show ((20 : ℚ) / 2) = 10 by norm_num]
    decide
  have hProbe1 : gcode "G38.2" [("Z", some (-5)), ("F", some (20 : ℚ))] =
      "G38.2 Z-5 F20" := by decide
  simp [startGCodes, pointGCodes, List.enum, List.enumFrom, key,
    hMarker0, hMarker1, hG90, hRetract, hProbe0, hProbe1]

/-- C9: saving the samples `{1,2,3}` and `{4,5,6}` produces the two
nine-field lines, and loading that file back restores exactly two
samples whose `x`, `y`, `z` equal the saved values in order — the six
reserved zero fields written by `save` are discarded by `load`, which
destructures only the first three tokens of each line. -/
theorem save_then_load_round_trip :
    saveData
        [{ x := some (num 1), y := some (num 2), z := some (num 3) },
         { x := some (num 4), y := some (num 5), z := some (num 6) }] =
      "1 2 3 0 0 0 0 0 0\n4 5 6 0 0 0 0 0 0" ∧
    loadProbedPositionsFromFile
        (some (saveData
          [{ x := some (num 1), y := some (num 2), z := some (num 3) },
           { x := some (num 4), y := some (num 5), z := some (num 6) }]))
        defaultState =
      (true,
        { probePointCount := 2,
          probedPositions :=
            [{ x := some (num 1), y := some (num 2), z := some (num 3) },
             { x := some (num 4), y := some (num 5), z := some (num 6) }],
          minZ := some (num 3), maxZ := some (num 6) }) := by
  constructor
  · decide
  · decide

/-- C10: a failed file read makes `loadProbedPositionsFromFile` return
`false` with the state exactly as before; a successful read returns
`true` and replaces `probePointCount`, `probedPositions`, `minZ` and
`maxZ` wholesale from the parsed contents — the resulting state does not
depend on the prior state at all. -/
theorem load_fault_preserves_state_success_replaces
    (s sOther : LevelingState) (data : String) :
    loadProbedPositionsFromFile none s = (false, s) ∧
    loadProbedPositionsFromFile (some data) s = (true, loadStateFrom s data) ∧
    loadStateFrom s data = loadStateFrom sOther data :=
  ⟨rfl, rfl, rfl⟩
